import Mathlib
set_option maxRecDepth 8000

/-!
Verification development for the instrument-file readers repository
(oscilloscope binary traces, SAFT scanner volumes, UltraVision
phased-array text exports).

The Python sources are shallowly embedded: every reader becomes a pure
Lean function over a record of the values its byte/text-level field
extraction produces, together with the raw sample payload.  Python
floats are modelled by exact rationals (`ℚ`); the single transcendental
operation (`np.cos`) forces the UltraVision depth axis into `ℝ`.
Fallible operations (enum-table indexing, key lookups, `xarray` /
`numpy` shape validation) return `Except`.
-/

/-- Python `int()` applied to a number: truncation toward zero. -/
def pyInt (q : ℚ) : ℤ := if 0 ≤ q then ⌊q⌋ else ⌈q⌉

/-- Python `x % 1` for a (finite) float: the fractional part
`x - floor x`. -/
def pyFrac (q : ℚ) : ℚ := q - (⌊q⌋ : ℚ)

/-- Python list indexing `l[i]`, which accepts negative indices counting
from the end and raises `IndexError` (here: `none`) when out of range on
either side. -/
def pyListGet {α : Type} (l : List α) (i : ℤ) : Option α :=
  if 0 ≤ i then l.get? i.toNat
  else if (-i).toNat ≤ l.length then l.get? (l.length - (-i).toNat)
  else none

/-- Does `pat` occur at the head of `l`? (helper for substring search). -/
def startsWithChars : List Char → List Char → Bool
  | [], _ => true
  | _ :: _, [] => false
  | p :: ps, c :: cs => p == c && startsWithChars ps cs

/-- Does `pat` occur anywhere inside `l`? (helper for substring search). -/
def containsChars (pat : List Char) : List Char → Bool
  | [] => startsWithChars pat []
  | c :: cs => startsWithChars pat (c :: cs) || containsChars pat cs

/-- Python `pat in s` on strings: substring containment. -/
def strContains (s pat : String) : Bool := containsChars pat.data s.data

/-- Python `' '.join(words)`. -/
def joinWords : List String → String
  | [] => ""
  | [w] => w
  | w :: ws => w ++ " " ++ joinWords ws

instance {e a : Type} [DecidableEq e] [DecidableEq a] : DecidableEq (Except e a) := fun x y =>
  match x, y with
  | .error u, .error v =>
    if h : u = v then isTrue (by rw [h]) else isFalse (fun hc => by cases hc; exact h rfl)
  | .ok u, .ok v =>
    if h : u = v then isTrue (by rw [h]) else isFalse (fun hc => by cases hc; exact h rfl)
  | .error _, .ok _ => isFalse (fun hc => Except.noConfusion hc)
  | .ok _, .error _ => isFalse (fun hc => Except.noConfusion hc)

namespace Lecroy

/-- The field values that `read_lecroy`'s binary header extraction
(`_readString` / `_readByte` / `_readWord` / `_readLong` / `_readFloat` /
`_readDouble` at the fixed `WAVEDESC`-relative addresses of
`src/lecroy.py`) produces, together with the decoded raw sample array
(`_readData`).  The byte-level reinterpretation itself (IEEE-754,
endianness) is abstracted to its result. -/
structure Fields where
  template_name : String
  instrument_name : String
  instrument_number : ℤ
  /-- the double at `aTRIGGER_TIME` -/
  trig_seconds : ℚ
  trig_minutes : ℤ
  trig_hours : ℤ
  trig_days : ℤ
  trig_months : ℤ
  trig_year : ℤ
  /-- signed word at `aWAVE_SOURCE` -/
  wave_source : ℤ
  /-- signed word at `aVERT_COUPLING` -/
  vert_coupling : ℤ
  bandwidth_limit : ℤ
  record_type_code : ℤ
  processing_code : ℤ
  fixed_vert_gain_code : ℤ
  probe_att : ℚ
  vertical_gain : ℚ
  vertical_offset : ℚ
  nominal_bits : ℤ
  horiz_interval : ℚ
  horiz_offset : ℚ
  timebase_code : ℤ
  comm_type : ℤ
  subarray_count : ℤ
  /-- the raw sample array, as 8- or 16-bit signed integers -/
  rawSamples : List ℤ
  deriving DecidableEq

/-- `info['coupling']` lookup table of `read_lecroy`. -/
def couplingTable : List String :=
  ["DC_50ohms", "Ground", "DC_10Mohm", "Ground", "AC_1Mohm"]

/-- `info['record_type']` lookup table of `read_lecroy`. -/
def recordTypeTable : List String :=
  ["single_sweep", "interleaved", "histogram", "graph", "filter_coefficient",
   "complex", "extrema", "sequence_obsolete", "contered_RIS", "peak_detect"]

/-- `info['processing']` lookup table of `read_lecroy`. -/
def processingTable : List String :=
  ["no_processing", "fir_filter", "interpolated", "sparsed", "autoscaled",
   "no_result", "rolling", "cumulative"]

/-- `FIXED_VERT_GAIN = [1, 2, 5][e % 3] * (10**(np.floor(e/3)-6))`.
Python `%` on a positive modulus is Euclidean (`Int.emod`); `np.floor` of
the true quotient is floor division (`Int.fdiv`).  The inner index is
always within `[0,3)`, so the list access cannot fail. -/
def fixedVertGainVal (e : ℤ) : ℚ :=
  (([1, 2, 5].getD (e.emod 3).toNat 0 : ℚ)) * (10 : ℚ) ^ (e.fdiv 3 - 6)

/-- `info['timebase'] = [1, 2, 5][e % 3] * (10**(np.floor(e/3)-12))`. -/
def timebaseVal (e : ℤ) : ℚ :=
  (([1, 2, 5].getD (e.emod 3).toNat 0 : ℚ)) * (10 : ℚ) ^ (e.fdiv 3 - 12)

/-- Result of Python's `datetime(...)` constructor as used in
`_readTimeStamp` (range validation of the constructor is not modelled). -/
structure DateTime where
  year : ℤ
  month : ℤ
  day : ℤ
  hour : ℤ
  minute : ℤ
  second : ℤ
  microsecond : ℤ
  deriving DecidableEq

/-- `_readTimeStamp`: the trigger timestamp combines the double seconds
field (truncated to whole seconds, with `int(np.floor((seconds % 1)*1e6))`
microseconds) with the byte minute/hour/day/month fields and word year
field. -/
def readTimeStampOf (f : Fields) : DateTime :=
  { year := f.trig_year
    month := f.trig_months
    day := f.trig_days
    hour := f.trig_hours
    minute := f.trig_minutes
    second := pyInt f.trig_seconds
    microsecond := ⌊pyFrac f.trig_seconds * 1000000⌋ }

/-- Errors of the embedded `read_lecroy`: a Python `IndexError` from an
enum-table list access (the spec's `InvalidEnumIndex`). -/
inductive Err where
  | indexError (field : String)
  deriving DecidableEq

/-- The dictionary `read_lecroy` returns: `info` entries flattened into
named fields, plus the calibrated `y` samples and the time axis `x`. -/
structure Result where
  instrument_name : String
  instrument_number : ℤ
  trigger_time : DateTime
  channel : ℤ
  coupling : String
  bandwidth_limit : Bool
  record_type : String
  processing : String
  nominal_bits : ℤ
  gain_with_probe : ℚ
  timebase : ℚ
  Fs : ℚ
  Ts : ℚ
  nb_segments : ℤ
  x : List ℚ
  y : List ℚ
  deriving DecidableEq

/-- Embedding of `read_lecroy` (src/lecroy.py).  The three enum lookups
happen in source order (coupling, record type, processing); each is a
Python list access, so a negative index within `[-len, -1]` resolves
from the end of the table, and only an index outside `[-len, len)`
raises `IndexError`. -/
def read_lecroy (f : Fields) : Except Err Result := do
  let coupling ← match pyListGet couplingTable f.vert_coupling with
    | some c => Except.ok c
    | none => Except.error (Err.indexError "VERT_COUPLING")
  let record_type ← match pyListGet recordTypeTable f.record_type_code with
    | some c => Except.ok c
    | none => Except.error (Err.indexError "RECORD_TYPE")
  let processing ← match pyListGet processingTable f.processing_code with
    | some c => Except.ok c
    | none => Except.error (Err.indexError "PROCESSING_DONE")
  Except.ok
    { instrument_name := f.instrument_name
      instrument_number := f.instrument_number
      trigger_time := readTimeStampOf f
      channel := f.wave_source + 1
      coupling := coupling
      bandwidth_limit := f.bandwidth_limit != 0
      record_type := record_type
      processing := processing
      nominal_bits := f.nominal_bits
      gain_with_probe := fixedVertGainVal f.fixed_vert_gain_code * f.probe_att
      timebase := timebaseVal f.timebase_code
      Fs := 1 / f.horiz_interval
      Ts := f.horiz_interval
      nb_segments := f.subarray_count
      x := (List.range f.rawSamples.length).map
        (fun (i : ℕ) => ((i : ℚ) + 1) * f.horiz_interval + f.horiz_offset)
      y := f.rawSamples.map (fun v => f.vertical_gain * (v : ℚ) - f.vertical_offset) }

/-- A well-formed oscilloscope capture: all enum codes valid, one raw
sample, trigger time 2020-06-03 10:15:30.5, unit horizontal interval and
zero horizontal offset. -/
def lecroyExample : Fields :=
  { template_name := "LECROY_2_3"
    instrument_name := "scope"
    instrument_number := 7
    trig_seconds := 30.5
    trig_minutes := 15
    trig_hours := 10
    trig_days := 3
    trig_months := 6
    trig_year := 2020
    wave_source := 0
    vert_coupling := 0
    bandwidth_limit := 0
    record_type_code := 0
    processing_code := 0
    fixed_vert_gain_code := 6
    probe_att := 1
    vertical_gain := 2
    vertical_offset := 1
    nominal_bits := 8
    horiz_interval := 1
    horiz_offset := 0
    timebase_code := 12
    comm_type := 0
    subarray_count := 1
    rawSamples := [3] }

/-- Same capture with the coupling word reading −1 (a value outside the
enum range `[0,4]`). -/
def lecroyNegCoupling : Fields := { lecroyExample with vert_coupling := -1 }

/-- Same capture with the coupling word reading 5. -/
def lecroyBigCoupling : Fields := { lecroyExample with vert_coupling := 5 }

end Lecroy

namespace Saft

/-- The header fields of a SAFT file that the grid-assembly part of
`saft` (src/readers/saft.py, lines 26-50) consumes.  `_read_header`'s
sequential fixed-width ASCII extraction over the 2048-byte header block
is abstracted to the decoded values of these fields. -/
structure Header where
  /-- `header['data_16bit']`: 16-bit samples if true, 8-bit otherwise -/
  data_16bit : Bool
  /-- `header['samp_ascan_length']`: number of time samples per A-scan -/
  samp_ascan_length : ℕ
  scan_xpoints : ℕ
  scan_ypoints : ℕ
  samp_windowstart_ns : ℚ
  samp_windowstop_ns : ℚ
  scan_xstart_in : ℚ
  scan_ystart_in : ℚ
  scan_xstep_in : ℚ
  scan_ystep_in : ℚ
  deriving DecidableEq

/-- `nbits = 8 + 8*header['data_16bit']`. -/
def nbits (h : Header) : ℕ := 8 + 8 * (if h.data_16bit then 1 else 0)

/-- `len_data_header = 2**5/(nbits/8)`: number of data-header words
preceding each A-scan (16 for 16-bit data, 32 for 8-bit). -/
def lenDataHeader (h : Header) : ℕ := 32 / (nbits h / 8)

/-- Failure of `saft`: the `IOError` raised when the computed A-scan
count disagrees with the declared geometry (the spec's
`IntegrityError`). -/
inductive Err where
  | integrityError
  deriving DecidableEq

/-- The `utkit.Signal3D` (a `pd.Panel`) returned by `saft`: a
(Y, time, X)-ordered volume with its three axes. -/
structure Out where
  /-- volume values, dimension order (Y, time, X) -/
  data : List (List (List ℚ))
  /-- `items` axis: Y positions in meters -/
  Y : List ℚ
  /-- `major_axis`: time in seconds -/
  t : List ℚ
  /-- `minor_axis`: X positions in meters -/
  X : List ℚ
  /-- `header['sampling_rate']` -/
  sampling_rate : ℚ
  deriving DecidableEq

/-- One centered sample: `data.astype('float') - 2**(nbits-1)` applied to
the raw unsigned word at flat index `idx`.  The index is always in range
once the integrity check has passed; the `getD` default is unreachable. -/
def sampleAt (h : Header) (data : List ℕ) (idx : ℕ) : ℚ :=
  ((data.getD idx 0 : ℕ) : ℚ) - 2 ^ (nbits h - 1)

/-- Embedding of `saft` (src/readers/saft.py).  `data` is the raw
payload decoded as unsigned 8/16-bit words (`np.frombuffer`).  The
computed A-scan count `len(data)/(Ns+len_data_header)` (Python float
division, exact here) must equal `Nx*Ny` or the decode fails; on success
the payload is reshaped to (Ny, Nx, Ns+ldh), the per-A-scan data header
stripped, and the volume transposed to (Y, time, X).  Axes: time from
the sampling window, X/Y from `np.arange(n)*step*25.4e-3` — the
`scan_xstart_in`/`scan_ystart_in` fields are not used. -/
def saft (h : Header) (data : List ℕ) : Except Err Out :=
  let Ns := h.samp_ascan_length
  let ldh := lenDataHeader h
  let Nx := h.scan_xpoints
  let Ny := h.scan_ypoints
  if (data.length : ℚ) / ((Ns : ℚ) + (ldh : ℚ)) ≠ ((Nx * Ny : ℕ) : ℚ) then
    .error .integrityError
  else
    let rate : ℚ := (Ns : ℚ) * 1e9 / (h.samp_windowstop_ns - h.samp_windowstart_ns)
    .ok
      { data := (List.range Ny).map fun iy =>
          (List.range Ns).map fun it =>
            (List.range Nx).map fun ix =>
              sampleAt h data ((iy * Nx + ix) * (Ns + ldh) + ldh + it)
        Y := (List.range Ny).map fun (i : ℕ) => (i : ℚ) * h.scan_ystep_in * 25.4e-3
        t := (List.range Ns).map fun (i : ℕ) =>
          h.samp_windowstart_ns * 1e-9 + (i : ℚ) / rate
        X := (List.range Nx).map fun (i : ℕ) => (i : ℚ) * h.scan_xstep_in * 25.4e-3
        sampling_rate := rate }

/-- A 2×2-point, 16-bit, 10-samples-per-A-scan scanner volume header
(the end-to-end scenario of the spec), with a nonzero X start to expose
whether the start fields enter the axes. -/
def saftExHeader : Header :=
  { data_16bit := true
    samp_ascan_length := 10
    scan_xpoints := 2
    scan_ypoints := 2
    samp_windowstart_ns := 0
    samp_windowstop_ns := 10
    scan_xstart_in := 1
    scan_ystart_in := 2
    scan_xstep_in := 1
    scan_ystep_in := 1 }

/-- A correctly-sized payload for `saftExHeader`: 4 A-scans of
16 data-header words + 10 samples each. -/
def saftExData : List ℕ := List.replicate 104 0

/-- The same payload with the last A-scan truncated by one sample. -/
def saftExDataTrunc : List ℕ := List.replicate 103 0

end Saft

namespace Ultravision

/-- One header line of an UltraVision export block, as parsed by
`pd.read_table(sep='=')` in `_read_file` (src/ultravision.py): the key
already split into whitespace-separated words (`header.index.str.split()`)
and the numeric value (all values `_process_header` reads are converted
with `int()`/`float()` in the source; the conversion is abstracted to
its result). -/
structure RawLine where
  parts : List String
  value : ℚ
  deriving DecidableEq

/-- The 19-line header table of one block. -/
abbrev Header := List RawLine

/-- Canonical field name: the key words that contain none of the
characters `[ ] ( )`, joined by single spaces (line 17 of the source). -/
def canonName (parts : List String) : String :=
  joinWords
    (parts.filter (fun w => ! w.data.any (fun c => c == '[' || c == ']' || c == '(' || c == ')')))

/-- `header[k]`: pandas label lookup on the canonicalized index. -/
def lookupValue (h : Header) (k : String) : Option ℚ :=
  (h.find? (fun l => canonName l.parts == k)).map RawLine.value

/-- Errors of the embedded UltraVision decode: Python `KeyError` (missing
header field), `IndexError` (empty word list or empty angle list), and
`ValueError` (numpy/xarray shape or coordinate-length validation — the
spec's `AngleCountMismatch` surfaces as this). -/
inductive Err where
  | keyError
  | indexError
  | valueError
  deriving DecidableEq

/-- The bracketed-unit extraction of line 26 of the source: the last word
of the raw key, stripped of its surrounding parentheses when present
(`p[-1][1:-1] if p[-1][0] == '(' and p[-1][-1] == ')' else None`).
Indexing an empty word list is a Python `IndexError`. -/
def unitOf (parts : List String) : Except Err (Option String) :=
  match parts.getLast? with
  | none => .error .indexError
  | some w =>
    match w.toList with
    | [] => .error .indexError
    | c :: cs =>
      if c = '(' ∧ (c :: cs).getLast (List.cons_ne_nil c cs) = ')' then
        .ok (some (String.mk cs.dropLast))
      else .ok none

/-- The `units` series of line 27: one `(canonical name, unit)` pair per
header line. -/
def unitsSeries (h : Header) : Except Err (List (String × Option String)) :=
  h.mapM (fun l => (unitOf l.parts).map (fun u => (canonName l.parts, u)))

/-- Label lookup on the units series. -/
def lookupUnit (pairs : List (String × Option String)) (k : String) : Option (Option String) :=
  (pairs.find? (fun p => p.1 == k)).map Prod.snd

/-- `float(header[k])` with a Python `KeyError` on a missing label. -/
def getVal (h : Header) (k : String) : Except Err ℚ :=
  match lookupValue h k with
  | some v => .ok v
  | none => .error .keyError

/-- `units[k]` with a Python `KeyError` on a missing label. -/
def getUnit (pairs : List (String × Option String)) (k : String) : Except Err (Option String) :=
  match lookupUnit pairs k with
  | some u => .ok u
  | none => .error .keyError

/-- Every header scalar `_process_header` consumes.  `usoundResolVal` is
kept unforced (`Option`) because the source only evaluates
`float(header['USoundResol'])` in the no-parameters branch. -/
structure Fields where
  scanQty : ℚ
  indexQty : ℚ
  usoundQty : ℚ
  scanStart : ℚ
  scanResol : ℚ
  indexStart : ℚ
  indexResol : ℚ
  usoundStart : ℚ
  usoundResolVal : Option ℚ
  unitIndexResol : Option String
  unitScanResol : Option String
  unitUSoundResol : Option String
  /-- the space-joined word list of header line 10 (used for the
  depth-axis semantic category) -/
  line10 : String
  focalLaw : ℚ
  deriving DecidableEq

/-- The field extraction part of `_process_header` (lines 15-31, 36, 54):
pandas label lookups over the canonicalized index plus the units series
and the `' '.join(parts[10])` text. -/
def extractFields (h : Header) : Except Err Fields := do
  let sq ← getVal h "ScanQty"
  let iq ← getVal h "IndexQty"
  let uq ← getVal h "USoundQty"
  let ss ← getVal h "ScanStart"
  let sr ← getVal h "ScanResol"
  let ist ← getVal h "IndexStart"
  let ir ← getVal h "IndexResol"
  let pairs ← unitsSeries h
  let ux ← getUnit pairs "IndexResol"
  let uy ← getUnit pairs "ScanResol"
  let uz ← getUnit pairs "USoundResol"
  let us ← getVal h "USoundStart"
  let l10 ← match h.get? 10 with
    | some l => Except.ok (joinWords l.parts)
    | none => Except.error Err.indexError
  let fl ← getVal h "Focal Law"
  Except.ok
    { scanQty := sq, indexQty := iq, usoundQty := uq
      scanStart := ss, scanResol := sr, indexStart := ist, indexResol := ir
      usoundStart := us
      usoundResolVal := lookupValue h "USoundResol"
      unitIndexResol := ux, unitScanResol := uy, unitUSoundResol := uz
      line10 := l10, focalLaw := fl }

/-- The dictionary `_process_header` returns: axis coordinate sequences,
the depth-axis semantic tag, per-axis units, and the focal-law id. -/
structure ProcessedHeader where
  x : List ℚ
  y : List ℚ
  z : List ℝ
  z_axis_type : String
  units_x : Option String
  units_y : Option String
  units_z : Option String
  focal_law : ℚ

/-- `np.deg2rad`. -/
noncomputable def deg2rad (a : ℝ) : ℝ := a * (Real.pi / 180)

/-- The computation part of `_process_header` (lines 13-55).  Note line
28 of the source: `out['units'] = {'x': units['IndexResol'],
'y': units['ScanResol'], ...}` while `out['x']` is built from
`ScanStart`/`ScanResol` and `out['y']` from `IndexStart`/`IndexResol`.
In the parameters-supplied branch the depth start is scaled by
`2/speed` for "Half Path" text and by `2/(speed*cos(deg2rad(angles[0])))`
for "True Depth" text or anything else (the source's TODO: assume true
depth when nothing is specified), and the axis advances by `1/fs`. -/
noncomputable def mkProcessed (flds : Fields) (angles : Option (List ℚ))
    (fs speed : Option ℚ) : Except Err ProcessedHeader :=
  let nx := (pyInt flds.scanQty).toNat
  let ny := (pyInt flds.indexQty).toNat
  let nz := (pyInt flds.usoundQty).toNat
  let x := (List.range nx).map fun (i : ℕ) => flds.scanStart + (i : ℚ) * flds.scanResol
  let y := (List.range ny).map fun (i : ℕ) => flds.indexStart + (i : ℚ) * flds.indexResol
  match angles, fs, speed with
  | some as, some fsv, some spv =>
    let zstartE : Except Err ℝ :=
      if strContains flds.line10 "Half Path" then
        .ok ((flds.usoundStart : ℝ) * (2 / (spv : ℝ)))
      else if strContains flds.line10 "True Depth" then
        match as.get? 0 with
        | some a0 => .ok ((flds.usoundStart : ℝ) * (2 / ((spv : ℝ) * Real.cos (deg2rad (a0 : ℝ)))))
        | none => .error .indexError
      else
        match as.get? 0 with
        | some a0 => .ok ((flds.usoundStart : ℝ) * (2 / ((spv : ℝ) * Real.cos (deg2rad (a0 : ℝ)))))
        | none => .error .indexError
    do
      let zs ← zstartE
      Except.ok
        { x := x, y := y
          z := (List.range nz).map fun (i : ℕ) => zs + (i : ℝ) / (fsv : ℝ)
          z_axis_type := "time"
          units_x := flds.unitIndexResol, units_y := flds.unitScanResol
          units_z := some "s", focal_law := flds.focalLaw }
  | _, _, _ =>
    match flds.usoundResolVal with
    | none => .error .keyError
    | some zr =>
      Except.ok
        { x := x, y := y
          z := (List.range nz).map fun (i : ℕ) => ((flds.usoundStart + (i : ℚ) * zr : ℚ) : ℝ)
          z_axis_type :=
            if strContains flds.line10 "Half Path" then "half path"
            else if strContains flds.line10 "True Depth" then "true depth"
            else "unknown"
          units_x := flds.unitIndexResol, units_y := flds.unitScanResol
          units_z := flds.unitUSoundResol, focal_law := flds.focalLaw }

/-- `_process_header` = field extraction followed by the computation. -/
noncomputable def processHeader (h : Header) (angles : Option (List ℚ))
    (fs speed : Option ℚ) : Except Err ProcessedHeader := do
  let flds ← extractFields h
  mkProcessed flds angles fs speed

/-- A numpy 3-D array: its shape and its (total) value function. -/
structure Arr3 where
  s1 : ℕ
  s2 : ℕ
  s3 : ℕ
  val : ℕ → ℕ → ℕ → ℚ

/-- One `(header block, data block)` pair of the export file.  The file
is modelled already split at the 19-line block boundaries the reading
loop of `_read_file` assumes; `rows` is what
`pd.read_table(nrows=nx*ny, sep='\t')` yields for the block. -/
structure Block where
  header : Header
  rows : List (List ℚ)

/-- Entry of a rectangular row list at (row, column). -/
def entryAt (rows : List (List ℚ)) (r c : ℕ) : ℚ := (rows.getD r []).getD c 0

/-- `u.iloc[:, :-1].values.reshape(nx, ny, -1, order='F')`: drop the
trailing artifact column, then reshape column-major.  numpy raises
`ValueError` when the frame is ragged, when a dimension is zero, or when
`nx*ny` does not divide the element count.  In F order the target entry
`(i, j, k)` comes from flat F-position `i + nx*j + nx*ny*k`, and flat
F-position `m` of an `(R, C)` matrix is entry `(m % R, m / R)`. -/
def reshapeRows (rows : List (List ℚ)) (nx ny : ℕ) : Except Err Arr3 :=
  let rows' := rows.map List.dropLast
  let R := rows'.length
  let C := (rows'.head?.map List.length).getD 0
  if rows'.all (fun r => r.length == C) then
    if nx * ny == 0 then .error .valueError
    else if (R * C) % (nx * ny) == 0 then
      .ok ⟨nx, ny, R * C / (nx * ny),
        fun i j k => entryAt rows' ((i + nx * j + nx * ny * k) % R) ((i + nx * j + nx * ny * k) / R)⟩
    else .error .valueError
  else .error .valueError

/-- The reading loop `_read_file`: with all three acquisition parameters
supplied only the first block's header is parsed and every data block is
reshaped with its dimensions; otherwise every block parses its own
header.  Running past the end of the stream (`EmptyDataError`) is the
normal termination and yields the collected lists. -/
noncomputable def readFile (file : List Block) (angles : Option (List ℚ))
    (fs speed : Option ℚ) : Except Err (List ProcessedHeader × List Arr3) :=
  match angles, fs, speed with
  | some _, some _, some _ =>
    match file with
    | [] => .ok ([], [])
    | b0 :: _ => do
      let h0 ← processHeader b0.header angles fs speed
      let blocks ← file.mapM (fun b => reshapeRows b.rows h0.x.length h0.y.length)
      Except.ok ([h0], blocks)
  | _, _, _ => do
    let hb ← file.mapM (fun b => do
      let h ← processHeader b.header angles fs speed
      let d ← reshapeRows b.rows h.x.length h.y.length
      Except.ok (h, d))
    Except.ok (hb.map Prod.fst, hb.map Prod.snd)

/-- An `xr.DataArray` with three coordinate axes.  Axis attributes
(`units`, `projection`) start empty on construction and are assigned
afterwards, as in the source. -/
structure DA3 where
  arr : Arr3
  xc : List ℚ
  yc : List ℚ
  zc : List ℝ
  units_x : Option String := none
  units_y : Option String := none
  units_z : Option String := none
  projection : Option String := none

/-- `xr.DataArray(data, coords=[X, Y, Z])`: xarray validates each
coordinate length against the corresponding dimension of the data's
shape and raises `ValueError` on any mismatch. -/
def mkDataArray3 (arr : Arr3) (xc : List ℚ) (yc : List ℚ) (zc : List ℝ) : Except Err DA3 :=
  if arr.s1 == xc.length && arr.s2 == yc.length && arr.s3 == zc.length then
    .ok { arr := arr, xc := xc, yc := yc, zc := zc }
  else .error .valueError

/-- A numpy 4-D array: shape plus value function. -/
structure Arr4 where
  s1 : ℕ
  s2 : ℕ
  s3 : ℕ
  s4 : ℕ
  val : ℕ → ℕ → ℕ → ℕ → ℚ

/-- `np.stack(data, axis=3)`: requires at least one block and identical
shapes, producing a fourth dimension of size `len(data)`. -/
def stack3 (blocks : List Arr3) : Except Err Arr4 :=
  match blocks with
  | [] => .error .valueError
  | b0 :: _ =>
    if blocks.all (fun b => b.s1 == b0.s1 && b.s2 == b0.s2 && b.s3 == b0.s3) then
      .ok ⟨b0.s1, b0.s2, b0.s3, blocks.length,
        fun i j k m => (blocks.getD m ⟨0, 0, 0, fun _ _ _ => 0⟩).val i j k⟩
    else .error .valueError

/-- An `xr.DataArray` with a fourth (angle) coordinate axis.  The angle
axis gets no attribute assignments anywhere in the source, so its
`units` attribute keeps its empty construction value. -/
structure DA4 where
  arr : Arr4
  xc : List ℚ
  yc : List ℚ
  zc : List ℝ
  angc : List ℚ
  units_x : Option String := none
  units_y : Option String := none
  units_z : Option String := none
  units_angle : Option String := none
  projection : Option String := none

/-- `xr.DataArray(stacked, coords=[X, Y, Z, angle])` with per-dimension
coordinate-length validation. -/
def mkDataArray4 (arr : Arr4) (xc : List ℚ) (yc : List ℚ) (zc : List ℝ)
    (angc : List ℚ) : Except Err DA4 :=
  if arr.s1 == xc.length && arr.s2 == yc.length && arr.s3 == zc.length
      && arr.s4 == angc.length then
    .ok { arr := arr, xc := xc, yc := yc, zc := zc, angc := angc }
  else .error .valueError

/-- The value `read_ultravision` returns: one 3-D grid, one stacked 4-D
grid, or a dictionary of per-angle 3-D grids (modelled as an association
list in insertion order). -/
inductive Out where
  | single3 (g : DA3)
  | single4 (g : DA4)
  | multi (gs : List (ℚ × DA3))

/-- The dictionary-building loop of the multiple-headers branch (lines
156-162 of the source): `zip(headers, angles, data)` truncates to the
shortest as in Python, and each grid gets its own header's `units` and
`projection` attributes. -/
def buildMulti (hs : List ProcessedHeader) (as : List ℚ) (ds : List Arr3) :
    Except Err (List (ℚ × DA3)) :=
  (hs.zip (as.zip ds)).mapM (fun p => do
    let da ← mkDataArray3 p.2.2 p.1.x p.1.y p.1.z
    Except.ok (p.2.1,
      { da with units_x := p.1.units_x, units_y := p.1.units_y,
                units_z := p.1.units_z, projection := some p.1.z_axis_type }))

/-- Embedding of `read_ultravision` (src/ultravision.py, lines 100-170).
Branch order follows the source: exactly one header and one block gives
a 3-D grid (any supplied angles are never consulted); one header and
several blocks stacks them along a new angle axis whose coordinates are
the supplied angles or `np.arange(focal_law, focal_law + len(data))`;
otherwise a dict keyed by angle/focal-law is built from
`zip(headers, angles, data)` (shortest wins, as in Python).  The
X/Y/Z `units` attributes (and the Z `projection`) are assigned after
construction from the first header (single results, lines 164-168) or
per block (dict results, lines 159-162); nothing is ever assigned to
the angle axis. -/
noncomputable def read_ultravision (file : List Block) (angles : Option (List ℚ))
    (fs speed : Option ℚ) : Except Err Out := do
  let hd ← readFile file angles fs speed
  match hd.1, hd.2 with
  | [h], [d] => do
    let da ← mkDataArray3 d h.x h.y h.z
    Except.ok (Out.single3
      { da with units_x := h.units_x, units_y := h.units_y,
                units_z := h.units_z, projection := some h.z_axis_type })
  | [h], d1 :: d2 :: ds => do
    let as := match angles with
      | none => (List.range (d1 :: d2 :: ds).length).map fun (i : ℕ) => h.focal_law + (i : ℚ)
      | some as => as
    let a4 ← stack3 (d1 :: d2 :: ds)
    let da ← mkDataArray4 a4 h.x h.y h.z as
    Except.ok (Out.single4
      { da with units_x := h.units_x, units_y := h.units_y,
                units_z := h.units_z, projection := some h.z_axis_type })
  | hs, ds => do
    let as := match angles with
      | none => hs.map ProcessedHeader.focal_law
      | some as => as
    let gs ← buildMulti hs as ds
    Except.ok (Out.multi gs)

/-- Discriminator of the three result forms. -/
def uvKind : Out → ℕ
  | .single3 _ => 0
  | .single4 _ => 1
  | .multi _ => 2

/-- The `units` attribute of the Z axis of a stacked result. -/
def stackedZUnit : Out → Option (Option String)
  | .single4 g => some g.units_z
  | _ => none

/-- The `units` attribute of the angle axis of a stacked result. -/
def stackedAngleUnit : Out → Option (Option String)
  | .single4 g => some g.units_angle
  | _ => none

/-- A well-formed 19-line example header: 2 scan points, 1 index point,
1 depth sample, "Half Path" depth text, focal law 5.  The `IndexResol`
line declares unit `(in)` while `ScanResol` declares `(mm)`, so the two
unit sources are distinguishable. -/
def uvHdr : Header :=
  [⟨["ScanQty"], 2⟩,
   ⟨["ScanStart", "(mm)"], 0⟩,
   ⟨["ScanResol", "(mm)"], 1⟩,
   ⟨["IndexQty"], 1⟩,
   ⟨["IndexStart", "(mm)"], 0⟩,
   ⟨["IndexResol", "(in)"], 1⟩,
   ⟨["USoundQty"], 1⟩,
   ⟨["USoundStart", "(mm)"], 1⟩,
   ⟨["USoundResol", "(mm)"], 1⟩,
   ⟨["Focal", "Law"], 5⟩,
   ⟨["Data", "Half", "Path", "(mm)"], 0⟩,
   ⟨["MiscA"], 0⟩, ⟨["MiscB"], 0⟩, ⟨["MiscC"], 0⟩, ⟨["MiscD"], 0⟩,
   ⟨["MiscE"], 0⟩, ⟨["MiscF"], 0⟩, ⟨["MiscG"], 0⟩, ⟨["MiscH"], 0⟩]

/-- The extracted fields of `uvHdr`. -/
def uvFlds : Fields :=
  { scanQty := 2, indexQty := 1, usoundQty := 1
    scanStart := 0, scanResol := 1, indexStart := 0, indexResol := 1
    usoundStart := 1
    usoundResolVal := some 1
    unitIndexResol := some "in", unitScanResol := some "mm", unitUSoundResol := some "mm"
    line10 := "Data Half Path (mm)", focalLaw := 5 }

/-- `uvHdr` with the depth label line replaced by "True Depth" text. -/
def uvHdrTD : Header := uvHdr.set 10 ⟨["Data", "True", "Depth", "(mm)"], 0⟩

/-- The extracted fields of `uvHdrTD`. -/
def uvFldsTD : Fields := { uvFlds with line10 := "Data True Depth (mm)" }

/-- A data block for `uvHdr`: `nx*ny = 2` rows, each with one depth
sample plus the trailing artifact column. -/
def uvRows : List (List ℚ) := [[7, 0], [8, 0]]

/-- One `(header, rows)` block. -/
def uvBlock : Block := ⟨uvHdr, uvRows⟩

/-- A single-block export file. -/
def uvFile1 : List Block := [uvBlock]

/-- A two-block export file (two focal laws sharing one geometry). -/
def uvFile2 : List Block := [uvBlock, uvBlock]

end Ultravision

-- ===================================================================
-- Claim theorems
-- ===================================================================

namespace Lecroy

/-- Helper simp set facts: evaluating the three enum-table lookups of a
generic decode. -/
theorem read_lecroy_ok_iff (f : Fields) (r : Result) :
    read_lecroy f = .ok r ↔
      ∃ c rt pr, pyListGet couplingTable f.vert_coupling = some c ∧
        pyListGet recordTypeTable f.record_type_code = some rt ∧
        pyListGet processingTable f.processing_code = some pr ∧
        r = { instrument_name := f.instrument_name
              instrument_number := f.instrument_number
              trigger_time := readTimeStampOf f
              channel := f.wave_source + 1
              coupling := c
              bandwidth_limit := f.bandwidth_limit != 0
              record_type := rt
              processing := pr
              nominal_bits := f.nominal_bits
              gain_with_probe := fixedVertGainVal f.fixed_vert_gain_code * f.probe_att
              timebase := timebaseVal f.timebase_code
              Fs := 1 / f.horiz_interval
              Ts := f.horiz_interval
              nb_segments := f.subarray_count
              x := (List.range f.rawSamples.length).map
                (fun (i : ℕ) => ((i : ℚ) + 1) * f.horiz_interval + f.horiz_offset)
              y := f.rawSamples.map
                (fun v => f.vertical_gain * (v : ℚ) - f.vertical_offset) } := by
  unfold read_lecroy
  cases h1 : pyListGet couplingTable f.vert_coupling <;>
    cases h2 : pyListGet recordTypeTable f.record_type_code <;>
      cases h3 : pyListGet processingTable f.processing_code <;>
        simp [bind, Except.bind, eq_comm]

/-- C4 (counterexample): the claim says the time-axis value at sample
index `i` is `horizontal_offset + i * horizontal_interval` for
`i = 0 .. N-1`.  On a decode with `horiz_interval = 1`,
`horiz_offset = 0` and a single sample, the code returns `x = [1]`,
but the claimed formula gives `0 + 0 * 1 = 0` at index 0. -/
theorem c4_time_axis_counterexample :
    (read_lecroy lecroyExample).toOption.map Result.x = some [1] ∧
      ¬ ((1 : ℚ) = lecroyExample.horiz_offset + 0 * lecroyExample.horiz_interval) := by
  constructor
  · simp [read_lecroy, lecroyExample, pyListGet, couplingTable, recordTypeTable,
      processingTable, bind, Except.bind, Except.toOption, List.range_succ]
  · simp [lecroyExample]

/-- C4 (amended): every returned vertical sample equals
`raw * vertical_gain - vertical_offset`, and the time-axis value at
sample index `i` (for `i = 0 .. N-1`) equals
`horizontal_offset + (i + 1) * horizontal_interval` (the source builds
the axis from `np.arange(1, N+1)`, i.e. 1-based indices). -/
theorem c4_calibration_and_time_axis (f : Fields) :
    (read_lecroy f).toOption.map Result.y
        = (read_lecroy f).toOption.map (fun _ =>
            f.rawSamples.map (fun v => f.vertical_gain * (v : ℚ) - f.vertical_offset)) ∧
      (read_lecroy f).toOption.map Result.x
        = (read_lecroy f).toOption.map (fun _ =>
            (List.range f.rawSamples.length).map
              (fun (i : ℕ) => f.horiz_offset + ((i : ℚ) + 1) * f.horiz_interval)) := by
  unfold read_lecroy
  cases h1 : pyListGet couplingTable f.vert_coupling <;>
    cases h2 : pyListGet recordTypeTable f.record_type_code <;>
      cases h3 : pyListGet processingTable f.processing_code <;>
        simp [bind, Except.bind, Except.toOption] <;> (intros; ring)

/-- C6 (counterexample): the claim says any decoded coupling value
outside `[0,4]` (including negative values) fails with the enum-index
error.  With coupling word −1 the decode succeeds and resolves the
Python list index from the end of the table, yielding `"AC_1Mohm"`. -/
theorem c6_negative_coupling_counterexample :
    lecroyNegCoupling.vert_coupling = -1 ∧
      (read_lecroy lecroyNegCoupling).toOption.map Result.coupling = some "AC_1Mohm" := by
  constructor
  · rfl
  · simp [read_lecroy, lecroyNegCoupling, lecroyExample, pyListGet, couplingTable,
      recordTypeTable, processingTable, bind, Except.bind, Except.toOption]

/-- C6 (amended): a decoded coupling value of 0 yields `"DC_50ohms"`; a
value greater than 4 or less than −5 makes decoding fail with the
enum-index error; a negative value in `[-5,-1]` resolves from the end of
the table without error (e.g. −1 yields `"AC_1Mohm"`). -/
theorem c6_coupling_enum (f : Fields) :
    (f.vert_coupling = 0 →
        (read_lecroy f).toOption.map Result.coupling
          = (read_lecroy f).toOption.map (fun _ => "DC_50ohms")) ∧
      (4 < f.vert_coupling ∨ f.vert_coupling < -5 →
        read_lecroy f = .error (Err.indexError "VERT_COUPLING")) ∧
      (f.vert_coupling = -1 →
        (read_lecroy f).toOption.map Result.coupling
          = (read_lecroy f).toOption.map (fun _ => "AC_1Mohm")) := by
  refine ⟨fun h0 => ?_, fun hout => ?_, fun hneg => ?_⟩
  · unfold read_lecroy
    rw [h0]
    cases h2 : pyListGet recordTypeTable f.record_type_code <;>
      cases h3 : pyListGet processingTable f.processing_code <;>
        simp [bind, Except.bind, Except.toOption, pyListGet, couplingTable]
  · have hnone : pyListGet couplingTable f.vert_coupling = none := by
      rcases hout with h | h
      · rw [pyListGet, if_pos (by omega)]
        rw [List.get?_eq_none]
        show 5 ≤ f.vert_coupling.toNat
        omega
      · rw [pyListGet, if_neg (by omega), if_neg ?_]
        show ¬ (-f.vert_coupling).toNat ≤ 5
        omega
    unfold read_lecroy
    rw [hnone]
    rfl
  · unfold read_lecroy
    rw [hneg]
    cases h2 : pyListGet recordTypeTable f.record_type_code <;>
      cases h3 : pyListGet processingTable f.processing_code <;>
        simp [bind, Except.bind, Except.toOption, pyListGet, couplingTable]

/-- C6 (witness): the amended statement applied to concrete captures
with coupling words 0, 5 and −1. -/
theorem c6_coupling_enum_witness :
    ((read_lecroy lecroyExample).toOption.map Result.coupling
        = (read_lecroy lecroyExample).toOption.map (fun _ => "DC_50ohms")) ∧
      read_lecroy lecroyBigCoupling = .error (Err.indexError "VERT_COUPLING") ∧
      ((read_lecroy lecroyNegCoupling).toOption.map Result.coupling
        = (read_lecroy lecroyNegCoupling).toOption.map (fun _ => "AC_1Mohm")) :=
  ⟨(c6_coupling_enum lecroyExample).1 rfl,
   (c6_coupling_enum lecroyBigCoupling).2.1 (Or.inl (by norm_num [lecroyBigCoupling, lecroyExample])),
   (c6_coupling_enum lecroyNegCoupling).2.2 rfl⟩

/-- C7: the trigger timestamp is composed from the double seconds field
(whole seconds by truncation, microseconds from the fractional part) and
the byte minute/hour/day/month and word year fields; concretely,
seconds 30.5, minute 15, hour 10, day 3, month 6, year 2020 decode to
2020-06-03 10:15:30.500000. -/
theorem c7_trigger_timestamp :
    (∀ f : Fields,
      (read_lecroy f).toOption.map Result.trigger_time
        = (read_lecroy f).toOption.map (fun _ =>
            { year := f.trig_year, month := f.trig_months, day := f.trig_days,
              hour := f.trig_hours, minute := f.trig_minutes,
              second := pyInt f.trig_seconds,
              microsecond := ⌊pyFrac f.trig_seconds * 1000000⌋ : DateTime })) ∧
      (read_lecroy lecroyExample).toOption.map Result.trigger_time
        = some ⟨2020, 6, 3, 10, 15, 30, 500000⟩ := by
  constructor
  · intro f
    unfold read_lecroy
    cases h1 : pyListGet couplingTable f.vert_coupling <;>
      cases h2 : pyListGet recordTypeTable f.record_type_code <;>
        cases h3 : pyListGet processingTable f.processing_code <;>
          simp [bind, Except.bind, Except.toOption, readTimeStampOf]
  · simp only [read_lecroy, lecroyExample, pyListGet, couplingTable, recordTypeTable,
      processingTable, bind, Except.bind, Except.toOption]
    norm_num [readTimeStampOf, pyInt, pyFrac, DateTime.mk.injEq]

/-- C9: the oscilloscope decode is a pure function of the decoded field
values of the file, so two invocations on the same input agree
bit-for-bit (sample values, axes and header fields alike). -/
theorem c9_deterministic (f : Fields) : read_lecroy f = read_lecroy f := rfl

end Lecroy

namespace Saft

/-- C1: whenever the computed A-scan count (total samples divided by
samples-per-scan plus data-header words) differs from the declared
`X points * Y points`, the scanner-volume decode fails with the
integrity error and produces no grid; whenever the counts agree the
decode succeeds with a volume of shape (Y, time, X) and matching axis
lengths. -/
theorem c1_integrity_and_shape :
    (∀ (h : Header) (data : List ℕ),
        (data.length : ℚ) / ((h.samp_ascan_length : ℚ) + (lenDataHeader h : ℚ))
            ≠ ((h.scan_xpoints * h.scan_ypoints : ℕ) : ℚ) →
        saft h data = .error .integrityError) ∧
    (∀ (h : Header) (data : List ℕ),
        (data.length : ℚ) / ((h.samp_ascan_length : ℚ) + (lenDataHeader h : ℚ))
            = ((h.scan_xpoints * h.scan_ypoints : ℕ) : ℚ) →
        ∃ g, saft h data = .ok g ∧
          g.data.length = h.scan_ypoints ∧
          (∀ p ∈ g.data, p.length = h.samp_ascan_length ∧ ∀ q ∈ p, q.length = h.scan_xpoints) ∧
          g.Y.length = h.scan_ypoints ∧ g.t.length = h.samp_ascan_length ∧
          g.X.length = h.scan_xpoints) := by
  constructor
  · intro h data hne
    unfold saft
    rw [if_pos hne]
  · intro h data heq
    unfold saft
    rw [if_neg (by simpa using heq)]
    refine ⟨_, rfl, by rw [List.length_map, List.length_range], ?_,
      by rw [List.length_map, List.length_range], by rw [List.length_map, List.length_range],
      by rw [List.length_map, List.length_range]⟩
    intro p hp
    simp only [List.mem_map, List.mem_range] at hp
    obtain ⟨iy, _, rfl⟩ := hp
    refine ⟨by rw [List.length_map, List.length_range], ?_⟩
    intro q hq
    simp only [List.mem_map, List.mem_range] at hq
    obtain ⟨it, _, rfl⟩ := hq
    rw [List.length_map, List.length_range]

/-- C1 (witness): the declared X=2, Y=2, 16-bit, 10-samples geometry
with 4 correctly-sized A-scans decodes to a (2, 10, 2) grid, and the
payload truncated by one sample fails with the integrity error. -/
theorem c1_witness :
    ((saftExDataTrunc.length : ℚ) /
        ((saftExHeader.samp_ascan_length : ℚ) + (lenDataHeader saftExHeader : ℚ))
          ≠ ((saftExHeader.scan_xpoints * saftExHeader.scan_ypoints : ℕ) : ℚ)) ∧
      saft saftExHeader saftExDataTrunc = .error .integrityError ∧
      (∃ g, saft saftExHeader saftExData = .ok g ∧
        g.data.length = 2 ∧
        (∀ p ∈ g.data, p.length = 10 ∧ ∀ q ∈ p, q.length = 2) ∧
        g.Y.length = 2 ∧ g.t.length = 10 ∧ g.X.length = 2) := by
  have hne : (saftExDataTrunc.length : ℚ) /
      ((saftExHeader.samp_ascan_length : ℚ) + (lenDataHeader saftExHeader : ℚ))
        ≠ ((saftExHeader.scan_xpoints * saftExHeader.scan_ypoints : ℕ) : ℚ) := by
    norm_num [saftExDataTrunc, saftExHeader, lenDataHeader, nbits]
  have heq : (saftExData.length : ℚ) /
      ((saftExHeader.samp_ascan_length : ℚ) + (lenDataHeader saftExHeader : ℚ))
        = ((saftExHeader.scan_xpoints * saftExHeader.scan_ypoints : ℕ) : ℚ) := by
    norm_num [saftExData, saftExHeader, lenDataHeader, nbits]
  exact ⟨hne, c1_integrity_and_shape.1 _ _ hne, c1_integrity_and_shape.2 _ _ heq⟩

/-- C5 (counterexample): the claim says the X axis values are
`scan_xstart + index * scan_xstep` converted to meters.  On a header
with `scan_xstart_in = 1` the decode returns `X[0] = 0`, while the
claimed formula gives `(1 + 0*1) * 25.4e-3 ≠ 0`. -/
theorem c5_axis_start_counterexample :
    (saft saftExHeader saftExData).toOption.map (fun g => g.X.get? 0) = some (some 0) ∧
      ¬ ((0 : ℚ) = (saftExHeader.scan_xstart_in + 0 * saftExHeader.scan_xstep_in) * 25.4e-3) := by
  constructor
  · unfold saft
    rw [if_neg (by norm_num [saftExData, saftExHeader, lenDataHeader, nbits])]
    simp [Except.toOption, saftExHeader, List.range_succ]
  · norm_num [saftExHeader]

/-- C5 (amended): the returned X axis values are
`index * scan_xstep * 25.4e-3` and the Y axis values
`index * scan_ystep * 25.4e-3` — built from point-count and step with
the inch-to-meter conversion, but ignoring the `scan_xstart_in` /
`scan_ystart_in` header fields. -/
theorem c5_axes_no_start (h : Header) (data : List ℕ) :
    (saft h data).toOption.map Out.X
        = (saft h data).toOption.map (fun _ =>
            (List.range h.scan_xpoints).map fun (i : ℕ) => (i : ℚ) * h.scan_xstep_in * 25.4e-3) ∧
      (saft h data).toOption.map Out.Y
        = (saft h data).toOption.map (fun _ =>
            (List.range h.scan_ypoints).map fun (i : ℕ) => (i : ℚ) * h.scan_ystep_in * 25.4e-3) := by
  by_cases hc : (data.length : ℚ) / ((h.samp_ascan_length : ℚ) + (lenDataHeader h : ℚ))
      ≠ ((h.scan_xpoints * h.scan_ypoints : ℕ) : ℚ)
  · simp only [saft]
    rw [if_pos hc]
    simp [Except.toOption]
  · simp only [saft]
    rw [if_neg hc]
    simp [Except.toOption]

end Saft

namespace Ultravision

/-- Decomposition of `_process_header`: it succeeds exactly when field
extraction succeeds and the computation on the extracted fields does. -/
theorem processHeader_ok_iff (h : Header) (aa : Option (List ℚ)) (ff ss : Option ℚ)
    (p : ProcessedHeader) :
    processHeader h aa ff ss = .ok p ↔
      ∃ flds, extractFields h = .ok flds ∧ mkProcessed flds aa ff ss = .ok p := by
  unfold processHeader
  cases hex : extractFields h <;> simp [bind, Except.bind]

/-- On any successful `_process_header` run, the X/Y coordinate
sequences and the (crossed) X/Y unit assignments are branch-independent. -/
theorem mkProcessed_xy_units (flds : Fields) (aa : Option (List ℚ)) (ff ss : Option ℚ)
    (p : ProcessedHeader) (hp : mkProcessed flds aa ff ss = .ok p) :
    p.x = (List.range (pyInt flds.scanQty).toNat).map
        (fun (i : ℕ) => flds.scanStart + (i : ℚ) * flds.scanResol) ∧
      p.y = (List.range (pyInt flds.indexQty).toNat).map
        (fun (i : ℕ) => flds.indexStart + (i : ℚ) * flds.indexResol) ∧
      p.units_x = flds.unitIndexResol ∧ p.units_y = flds.unitScanResol := by
  unfold mkProcessed at hp
  rcases aa with _ | as <;> rcases ff with _ | fsv <;> rcases ss with _ | spv <;>
    simp only [] at hp
  case none.none.none | none.none.some | none.some.none | none.some.some
    | some.none.none | some.none.some | some.some.none =>
    rcases hzr : flds.usoundResolVal with _ | zr <;> rw [hzr] at hp
    · exact absurd hp (by simp)
    · cases hp
      exact ⟨rfl, rfl, rfl, rfl⟩
  case some.some.some =>
    split at hp
    · simp only [bind, Except.bind] at hp
      cases hp
      exact ⟨rfl, rfl, rfl, rfl⟩
    · split at hp <;> (rcases h0 : as.get? 0 with _ | a0 <;> rw [h0] at hp <;>
        simp only [bind, Except.bind] at hp)
      · exact absurd hp (by simp)
      · cases hp
        exact ⟨rfl, rfl, rfl, rfl⟩
      · exact absurd hp (by simp)
      · cases hp
        exact ⟨rfl, rfl, rfl, rfl⟩

/-- With acquisition parameters supplied, the Z axis always gets the
unit string "s". -/
theorem mkProcessed_params_z_unit (flds : Fields) (A : List ℚ) (F S : ℚ)
    (p : ProcessedHeader) (hp : mkProcessed flds (some A) (some F) (some S) = .ok p) :
    p.units_z = some "s" := by
  unfold mkProcessed at hp
  simp only [] at hp
  split at hp
  · simp only [bind, Except.bind] at hp
    cases hp
    rfl
  · split at hp <;> (rcases h0 : A.get? 0 with _ | a0 <;> rw [h0] at hp <;>
      simp only [bind, Except.bind] at hp)
    · exact absurd hp (by simp)
    · cases hp
      rfl
    · exact absurd hp (by simp)
    · cases hp
      rfl

/-- With acquisition parameters supplied, the Z axis values in the two
semantic categories. -/
theorem mkProcessed_params_z (flds : Fields) (A : List ℚ) (F S : ℚ)
    (p : ProcessedHeader) (hp : mkProcessed flds (some A) (some F) (some S) = .ok p) :
    (strContains flds.line10 "Half Path" = true →
      p.z = (List.range (pyInt flds.usoundQty).toNat).map
        (fun (i : ℕ) => (flds.usoundStart : ℝ) * (2 / (S : ℝ)) + (i : ℝ) / (F : ℝ))) ∧
    (strContains flds.line10 "Half Path" = false → ∀ a0, A.get? 0 = some a0 →
      p.z = (List.range (pyInt flds.usoundQty).toNat).map
        (fun (i : ℕ) => (flds.usoundStart : ℝ) * (2 / ((S : ℝ) * Real.cos (deg2rad (a0 : ℝ))))
          + (i : ℝ) / (F : ℝ))) := by
  unfold mkProcessed at hp
  simp only [] at hp
  constructor
  · intro hhalf
    rw [if_pos hhalf] at hp
    simp only [bind, Except.bind] at hp
    cases hp
    rfl
  · intro hhalf a0 h0
    rw [if_neg (by simp [hhalf])] at hp
    split at hp <;> (rw [h0] at hp <;> simp only [bind, Except.bind] at hp <;> cases hp <;> rfl)

/-- C2: with acquisition parameters supplied, the raw depth-axis start
is converted to elapsed time as `2 * raw / speed` when the header's
depth label contains "Half Path", and as
`2 * raw / (speed * cos(deg2rad angles[0]))` when it contains
"True Depth" or matches neither category; each subsequent axis value
advances by `1 / fs`. -/
theorem c2_depth_axis (h : Header) (flds : Fields) (A : List ℚ) (F S : ℚ)
    (hex : extractFields h = .ok flds)
    (hok : (processHeader h (some A) (some F) (some S)).isOk = true) :
    (strContains flds.line10 "Half Path" = true →
      (processHeader h (some A) (some F) (some S)).toOption.map ProcessedHeader.z
        = some ((List.range (pyInt flds.usoundQty).toNat).map
            (fun (i : ℕ) => 2 * (flds.usoundStart : ℝ) / (S : ℝ) + (i : ℝ) * (1 / (F : ℝ))))) ∧
    (strContains flds.line10 "Half Path" = false → ∀ a0, A.get? 0 = some a0 →
      (processHeader h (some A) (some F) (some S)).toOption.map ProcessedHeader.z
        = some ((List.range (pyInt flds.usoundQty).toNat).map
            (fun (i : ℕ) =>
              2 * (flds.usoundStart : ℝ) / ((S : ℝ) * Real.cos (deg2rad (a0 : ℝ)))
                + (i : ℝ) * (1 / (F : ℝ))))) := by
  cases hres : processHeader h (some A) (some F) (some S) with
  | error e => rw [hres] at hok; simp [Except.isOk, Except.toBool] at hok
  | ok p =>
    obtain ⟨flds', hex', hmk⟩ := (processHeader_ok_iff h _ _ _ p).1 hres
    rw [hex] at hex'
    cases hex'
    have hz := mkProcessed_params_z flds A F S p hmk
    constructor
    · intro hhalf
      simp only [Except.toOption, Option.map]
      rw [hz.1 hhalf]
      exact congrArg some (List.map_congr_left (fun i _ => by ring))
    · intro hhalf a0 h0
      simp only [Except.toOption, Option.map]
      rw [hz.2 hhalf a0 h0]
      exact congrArg some (List.map_congr_left (fun i _ => by ring))

/-- C2 (witness): the conversion theorem applied to a concrete
half-path header and a concrete true-depth header. -/
theorem c2_depth_axis_witness :
    (extractFields uvHdr = .ok uvFlds ∧
      strContains uvFlds.line10 "Half Path" = true ∧
      (processHeader uvHdr (some [30]) (some 1) (some 2)).toOption.map ProcessedHeader.z
        = some ((List.range (pyInt uvFlds.usoundQty).toNat).map
            (fun (i : ℕ) => 2 * (uvFlds.usoundStart : ℝ) / ((2 : ℚ) : ℝ)
              + (i : ℝ) * (1 / ((1 : ℚ) : ℝ))))) ∧
    (extractFields uvHdrTD = .ok uvFldsTD ∧
      strContains uvFldsTD.line10 "Half Path" = false ∧
      (processHeader uvHdrTD (some [30]) (some 1) (some 2)).toOption.map ProcessedHeader.z
        = some ((List.range (pyInt uvFldsTD.usoundQty).toNat).map
            (fun (i : ℕ) =>
              2 * (uvFldsTD.usoundStart : ℝ) / (((2 : ℚ) : ℝ) * Real.cos (deg2rad ((30 : ℚ) : ℝ)))
                + (i : ℝ) * (1 / ((1 : ℚ) : ℝ))))) := by
  refine ⟨⟨by decide, by decide, ?_⟩, ⟨by decide, by decide, ?_⟩⟩
  · exact (c2_depth_axis uvHdr uvFlds [30] 1 2 (by decide) (by decide)).1 (by decide)
  · exact (c2_depth_axis uvHdrTD uvFldsTD [30] 1 2 (by decide) (by decide)).2 (by decide) 30 (by decide)

/-- C10: on every successful header decode, the X coordinate values
come from `ScanStart`/`ScanResol` and the Y values from
`IndexStart`/`IndexResol`, while the X-axis unit string is the one
attached to the `IndexResol` line and the Y-axis unit the one attached
to the `ScanResol` line — crossed relative to the value sources. -/
theorem c10_crossed_units (h : Header) (flds : Fields) (aa : Option (List ℚ)) (ff ss : Option ℚ)
    (hex : extractFields h = .ok flds)
    (hok : (processHeader h aa ff ss).isOk = true) :
    (processHeader h aa ff ss).toOption.map (fun p => (p.units_x, p.units_y, p.x, p.y))
      = some (flds.unitIndexResol, flds.unitScanResol,
          (List.range (pyInt flds.scanQty).toNat).map
            (fun (i : ℕ) => flds.scanStart + (i : ℚ) * flds.scanResol),
          (List.range (pyInt flds.indexQty).toNat).map
            (fun (i : ℕ) => flds.indexStart + (i : ℚ) * flds.indexResol)) := by
  cases hres : processHeader h aa ff ss with
  | error e => rw [hres] at hok; simp [Except.isOk, Except.toBool] at hok
  | ok p =>
    obtain ⟨flds', hex', hmk⟩ := (processHeader_ok_iff h _ _ _ p).1 hres
    rw [hex] at hex'
    cases hex'
    obtain ⟨hx, hy, hux, huy⟩ := mkProcessed_xy_units flds aa ff ss p hmk
    simp only [Except.toOption, Option.map]
    rw [hx, hy, hux, huy]

/-- C10 (witness): on the concrete header, whose `IndexResol` line
declares `(in)` and `ScanResol` line `(mm)`, the decoded X axis carries
"in" and the Y axis "mm". -/
theorem c10_crossed_units_witness :
    extractFields uvHdr = .ok uvFlds ∧
      uvFlds.unitIndexResol = some "in" ∧ uvFlds.unitScanResol = some "mm" ∧
      (processHeader uvHdr (some [30]) (some 1) (some 2)).toOption.map
          (fun p => (p.units_x, p.units_y, p.x, p.y))
        = some (uvFlds.unitIndexResol, uvFlds.unitScanResol,
            (List.range (pyInt uvFlds.scanQty).toNat).map
              (fun (i : ℕ) => uvFlds.scanStart + (i : ℚ) * uvFlds.scanResol),
            (List.range (pyInt uvFlds.indexQty).toNat).map
              (fun (i : ℕ) => uvFlds.indexStart + (i : ℚ) * uvFlds.indexResol)) :=
  ⟨by decide, by decide, by decide,
    c10_crossed_units uvHdr uvFlds (some [30]) (some 1) (some 2) (by decide) (by decide)⟩

/-- `np.stack` either fails with a `ValueError` or produces a fourth
dimension equal to the number of stacked blocks. -/
theorem stack3_cases (bs : List Arr3) :
    stack3 bs = .error .valueError ∨ ∃ a4, stack3 bs = .ok a4 ∧ a4.s4 = bs.length := by
  cases bs with
  | nil => exact Or.inl rfl
  | cons b0 t =>
    simp only [stack3]
    by_cases hall : ((b0 :: t).all fun b => b.s1 == b0.s1 && b.s2 == b0.s2 && b.s3 == b0.s3) = true
    · rw [if_pos hall]
      exact Or.inr ⟨_, rfl, rfl⟩
    · rw [if_neg hall]
      exact Or.inl rfl

/-- Every header the parameters-supplied reading loop returns carries
the Z unit "s". -/
theorem readFile_params_units_z (file : List Block) (A : List ℚ) (F S : ℚ)
    (hs : List ProcessedHeader) (ds : List Arr3)
    (hrf : readFile file (some A) (some F) (some S) = .ok (hs, ds)) :
    ∀ ph ∈ hs, ph.units_z = some "s" := by
  unfold readFile at hrf
  cases file with
  | nil =>
    simp only [] at hrf
    cases hrf
    intro ph hm
    simp at hm
  | cons b0 rest =>
    simp only [] at hrf
    cases hph : processHeader b0.header (some A) (some F) (some S) with
    | error e => rw [hph] at hrf; exact absurd hrf (by simp [bind, Except.bind])
    | ok h0 =>
      rw [hph] at hrf
      simp only [bind, Except.bind] at hrf
      cases hmb : (b0 :: rest).mapM (fun b => reshapeRows b.rows h0.x.length h0.y.length) with
      | error e => rw [hmb] at hrf; exact absurd hrf (by simp)
      | ok bs =>
        rw [hmb] at hrf
        cases hrf
        intro ph hm
        rw [List.mem_singleton] at hm
        subst hm
        obtain ⟨flds, _, hmk⟩ := (processHeader_ok_iff _ _ _ _ _).1 hph
        exact mkProcessed_params_z_unit flds A F S ph hmk

/-- C3 (amended): with acquisition parameters supplied, when more than
one data block is detected and the caller-supplied angle count differs
from the block count, decoding fails (the coordinate-length `ValueError`
from the stacked-grid construction — the spec's `AngleCountMismatch`). -/
theorem c3_angle_count (file : List Block) (A : List ℚ) (F S : ℚ) (n : ℕ)
    (hrf : (readFile file (some A) (some F) (some S)).toOption.map
        (fun r => (r.1.length, r.2.length)) = some (1, n))
    (hn : 1 < n) (hA : A.length ≠ n) :
    read_ultravision file (some A) (some F) (some S) = .error .valueError := by
  cases hres : readFile file (some A) (some F) (some S) with
  | error e => rw [hres] at hrf; simp [Except.toOption] at hrf
  | ok r =>
    rw [hres] at hrf
    simp only [Except.toOption, Option.map, Option.some.injEq, Prod.mk.injEq] at hrf
    obtain ⟨h1, h2⟩ := hrf
    obtain ⟨hs, ds⟩ := r
    simp only [] at h1 h2
    unfold read_ultravision
    rw [hres]
    simp only [bind, Except.bind]
    rcases hs with _ | ⟨h, hs'⟩
    · simp at h1
    rcases hs' with _ | ⟨h', hs''⟩
    case cons.cons => simp at h1
    rcases ds with _ | ⟨d1, ds1⟩
    · rw [← h2] at hn; simp at hn
    rcases ds1 with _ | ⟨d2, ds2⟩
    · rw [← h2] at hn; simp at hn
    simp only []
    rcases stack3_cases (d1 :: d2 :: ds2) with hst | ⟨a4, hst, hs4⟩
    · rw [hst]
    · rw [hst]
      simp only [bind, Except.bind]
      have hbad : (a4.s4 == A.length) = false := by
        rw [beq_eq_false_iff_ne, hs4]
        subst h2
        exact fun hc => hA hc.symm
      unfold mkDataArray4
      rw [hbad, Bool.and_false]
      simp

/-- C3 (counterexample): on a single-block file with two supplied
angles — an angle count that differs from the detected block count — the
decode succeeds with a 3-D grid instead of failing. -/
theorem c3_counterexample :
    uvFile1.length = 1 ∧ ([30, 40] : List ℚ).length = 2 ∧
      (read_ultravision uvFile1 (some [30, 40]) (some 1) (some 2)).toOption.map uvKind
        = some 0 := by
  refine ⟨rfl, rfl, by decide⟩

/-- C3 (witness): three angles against two detected blocks fail. -/
theorem c3_witness :
    read_ultravision uvFile2 (some [30, 40, 50]) (some 1) (some 2) = .error .valueError :=
  c3_angle_count uvFile2 [30, 40, 50] 1 2 2 (by decide) (by decide) (by decide)

/-- A freshly constructed 4-D DataArray has no `units` attribute on its
angle axis. -/
theorem mkDataArray4_angle_unit (arr : Arr4) (xc yc : List ℚ) (zc : List ℝ) (angc : List ℚ)
    (da : DA4) (hda : mkDataArray4 arr xc yc zc angc = .ok da) : da.units_angle = none := by
  unfold mkDataArray4 at hda
  split at hda
  · cases hda
    rfl
  · exact absurd hda (by simp)

/-- C8 (amended): not every axis of every returned grid carries a
non-empty unit string.  What does hold for a stacked phased-array result
decoded with parameters: the Z axis carries the unit "s", while the
angle axis carries no unit attribute at all.  (The oscilloscope and
scanner-volume embeddings return bare coordinate arrays with no unit
strings anywhere; see `Lecroy.Result` and `Saft.Out`.) -/
theorem c8_stacked_units (file : List Block) (A : List ℚ) (F S : ℚ)
    (hk : (read_ultravision file (some A) (some F) (some S)).toOption.map uvKind = some 1) :
    (read_ultravision file (some A) (some F) (some S)).toOption.map
        (fun o => (stackedZUnit o, stackedAngleUnit o))
      = some (some (some "s"), some none) := by
  cases hres : read_ultravision file (some A) (some F) (some S) with
  | error e => rw [hres] at hk; simp [Except.toOption] at hk
  | ok o =>
    rw [hres] at hk
    cases o with
    | single3 g => simp [Except.toOption, Option.map, uvKind] at hk
    | multi gs => simp [Except.toOption, Option.map, uvKind] at hk
    | single4 g =>
      simp only [Except.toOption, Option.map, stackedZUnit, stackedAngleUnit]
      unfold read_ultravision at hres
      cases hr2 : readFile file (some A) (some F) (some S) with
      | error e => rw [hr2] at hres; exact absurd hres (by simp [bind, Except.bind])
      | ok r =>
        obtain ⟨hs, ds⟩ := r
        rw [hr2] at hres
        simp only [bind, Except.bind] at hres
        have hz : ∀ ph ∈ hs, ph.units_z = some "s" :=
          readFile_params_units_z file A F S hs ds hr2
        rcases hs with _ | ⟨h, hs'⟩
        · -- catch-all branch: produces a dict or an error, never a stacked grid
          simp only [] at hres
          cases hmm2 : buildMulti [] A ds with
          | error e => rw [hmm2] at hres; exact absurd hres (by simp [bind, Except.bind])
          | ok gs => rw [hmm2] at hres; exact absurd hres (by simp [bind, Except.bind])
        rcases hs' with _ | ⟨h2, hs''⟩
        case cons.cons =>
          simp only [] at hres
          cases hmm2 : buildMulti (h :: h2 :: hs'') A ds with
          | error e => rw [hmm2] at hres; exact absurd hres (by simp [bind, Except.bind])
          | ok gs => rw [hmm2] at hres; exact absurd hres (by simp [bind, Except.bind])
        rcases ds with _ | ⟨d1, ds1⟩
        · simp only [] at hres
          cases hmm2 : buildMulti [h] A [] with
          | error e => rw [hmm2] at hres; exact absurd hres (by simp [bind, Except.bind])
          | ok gs => rw [hmm2] at hres; exact absurd hres (by simp [bind, Except.bind])
        rcases ds1 with _ | ⟨d2, ds2⟩
        · -- single-block branch: produces single3, never single4
          simp only [] at hres
          cases hda : mkDataArray3 d1 h.x h.y h.z with
          | error e => rw [hda] at hres; exact absurd hres (by simp [bind, Except.bind])
          | ok da => rw [hda] at hres; exact absurd hres (by simp [bind, Except.bind])
        · -- the stacking branch
          simp only [] at hres
          rcases stack3_cases (d1 :: d2 :: ds2) with hst | ⟨a4, hst, _⟩
          · rw [hst] at hres; exact absurd hres (by simp [bind, Except.bind])
          · rw [hst] at hres
            simp only [bind, Except.bind] at hres
            cases hda : mkDataArray4 a4 h.x h.y h.z A with
            | error e => rw [hda] at hres; exact absurd hres (by simp)
            | ok da =>
              rw [hda] at hres
              cases hres
              have ha := mkDataArray4_angle_unit a4 h.x h.y h.z A da hda
              have hzu := hz h (List.mem_singleton.mpr rfl)
              simp [hzu, ha]

/-- C8 (counterexample): a successfully decoded stacked phased-array
result (kind 1) whose angle axis carries no unit string, contradicting
the claim that every axis of every returned grid carries a non-empty
unit. -/
theorem c8_angle_axis_counterexample :
    (read_ultravision uvFile2 (some [30, 40]) (some 1) (some 2)).toOption.map
        (fun o => (uvKind o, stackedAngleUnit o)) = some (1, some none) := by
  decide

/-- C8 (witness): the amended statement at the concrete two-block
file. -/
theorem c8_stacked_units_witness :
    (read_ultravision uvFile2 (some [30, 40]) (some 1) (some 2)).toOption.map
        (fun o => (stackedZUnit o, stackedAngleUnit o))
      = some (some (some "s"), some none) :=
  c8_stacked_units uvFile2 [30, 40] 1 2 (by decide)

end Ultravision
